import Mathlib

/-!
Shallow embedding of the clinic-management application in src/app.py
(Flask + SQLAlchemy over SQLite), restricted to the data model and the
domain operations the specification is about.

Modelling conventions, each justified against the source:
* A SQLAlchemy table is a Lean list of records, kept in rowid (insertion)
  order; an UPDATE rewrites the record in place, a DELETE filters it out.
* A nullable column is an Option; a DateTime column is a Nat timestamp
  supplied explicitly by the caller (the source fills it with
  datetime.utcnow at creation time).
* A Float column (Bill.amount) is modelled as Rat: the claims under study
  concern which rows are included and integer truncation, not IEEE
  rounding.
* SQLite assigns a new rowid of max(existing ids) + 1 (no AUTOINCREMENT
  keyword is used in the source), modelled by nextId.
* random.choices(string.ascii_uppercase + string.digits, k=8) is modelled
  by passing the drawn characters as an explicit oracle argument,
  constrained to length 8 over that alphabet where a theorem needs it.
* request.form.get returns None for a missing field: form fields are
  Option String.
* A failed request (caught exception with a flash, an uncaught exception
  producing a 500, or get_or_404) performs no database mutation in the
  source; it is modelled as Except.error, the store being unchanged.
-/

/-- Errors surfaced by the request handlers: get_or_404 aborts with 404
(NotFound); int(...)/float(...) raising on bad input aborts the handler
(caught and flashed in add_patient, uncaught elsewhere). -/
inductive AppError where
  | notFound
  | valueError
deriving Repr, DecidableEq

/-- Patient model (src/app.py lines 15-27). created_at is a DateTime with
default datetime.utcnow, modelled as a Nat timestamp. -/
structure Patient where
  id : Int
  name : Option String
  email : Option String
  phone : Option String
  address : Option String
  age : Int
  gender : Option String
  diagnosis : Option String
  created_at : Nat
deriving Repr, DecidableEq

/-- Appointment model (src/app.py lines 30-37); status defaults to
"Upcoming" at creation. -/
structure Appointment where
  id : Int
  patient_id : Int
  doctor : Option String
  date : Option String
  time : Option String
  reason : Option String
  status : String
deriving Repr, DecidableEq

/-- Bill model (src/app.py lines 40-48); status defaults to "Pending",
transaction_id and payment_method are nullable. -/
structure Bill where
  id : Int
  patient_id : Int
  amount : Rat
  payment_method : Option String
  status : String
  transaction_id : Option String
  description : Option String
  date_issued : Nat
deriving Repr, DecidableEq

/-- The persistent store: the three tables, each in rowid order. -/
structure Store where
  patients : List Patient
  appointments : List Appointment
  bills : List Bill
deriving Repr, DecidableEq

/-- SQLite rowid assignment for an INSERT: one more than the largest
existing id (1 on an empty table). -/
def nextId (ids : List Int) : Int :=
  ids.foldl max 0 + 1

/-- Alphabet of random_txn: string.ascii_uppercase + string.digits. -/
def isTxnChar (c : Char) : Bool :=
  ('A' ≤ c && c ≤ 'Z') || ('0' ≤ c && c ≤ '9')

/-- random_txn (src/app.py lines 51-53): the prefix followed by the 8
randomly drawn characters, the draw being passed in explicitly. -/
def random_txn (pre : String) (draw : List Char) : String :=
  pre ++ String.mk draw

/-- ASCII decimal digit test. -/
def isAsciiDigit (c : Char) : Bool :=
  '0' ≤ c && c ≤ '9'

/-- Value of a list of decimal digits. -/
def digitsToNat (cs : List Char) : Nat :=
  cs.foldl (fun n c => 10 * n + (c.toNat - '0'.toNat)) 0

/-- Parse a non-empty all-digit string. -/
def parseDigits (cs : List Char) : Option Nat :=
  if !cs.isEmpty && cs.all isAsciiDigit then some (digitsToNat cs) else none

/-- ASCII whitespace stripped by Python's int()/float() conversion. -/
def isPySpace (c : Char) : Bool :=
  c == ' ' || c == '\t' || c == '\n' || c == '\r' || c == '\x0b' || c == '\x0c'

/-- Strip leading and trailing whitespace from a character list. -/
def trimChars (cs : List Char) : List Char :=
  ((cs.dropWhile isPySpace).reverse.dropWhile isPySpace).reverse

/-- Python int(str): strips surrounding whitespace, then an optional sign
followed by at least one decimal digit; anything else raises ValueError.
(Python additionally accepts underscore digit grouping and non-ASCII
digits; those are not modelled.) -/
def parsePyInt (s : String) : Option Int :=
  match trimChars s.toList with
  | '+' :: rest => (parseDigits rest).map Int.ofNat
  | '-' :: rest => (parseDigits rest).map (fun n => -(n : Int))
  | cs => (parseDigits cs).map Int.ofNat

/-- Unsigned decimal part of Python float(str): digits, optionally with a
decimal point, at least one digit overall. -/
def parseUnsignedFloat (cs : List Char) : Option Rat :=
  let intPart := cs.takeWhile isAsciiDigit
  let rest := cs.dropWhile isAsciiDigit
  match rest with
  | [] => if intPart.isEmpty then none else some (digitsToNat intPart : Rat)
  | '.' :: frac =>
    if frac.all isAsciiDigit && (!intPart.isEmpty || !frac.isEmpty) then
      some ((digitsToNat intPart : Rat) + (digitsToNat frac : Rat) / (10 : Rat) ^ frac.length)
    else none
  | _ => none

/-- Python float(str): whitespace-stripped optional sign and a decimal
literal; anything else raises ValueError. (Exponents, inf/nan and
underscore grouping are not modelled.) -/
def parsePyFloat (s : String) : Option Rat :=
  match trimChars s.toList with
  | '+' :: rest => parseUnsignedFloat rest
  | '-' :: rest => (parseUnsignedFloat rest).map Neg.neg
  | cs => parseUnsignedFloat cs

/-- Python int() truncates toward zero. -/
def pyTruncInt (q : Rat) : Int :=
  if 0 ≤ q then q.floor else q.ceil

/-- The expression int(request.form.get(field) or 0): a missing field
(None) or an empty string is falsy and yields int(0) = 0; any other
string goes through int(str), which may raise. -/
def parseOrZeroInt (f : Option String) : Option Int :=
  match f with
  | none => some 0
  | some s => if s = "" then some 0 else parsePyInt s

/-- The expression float(request.form.get(field) or 0), with the same
falsy-default behavior as parseOrZeroInt. -/
def parseOrZeroFloat (f : Option String) : Option Rat :=
  match f with
  | none => some 0
  | some s => if s = "" then some 0 else parsePyFloat s

/-- Form data of the add-patient POST (src/app.py lines 105-113). -/
structure PatientForm where
  name : Option String
  email : Option String
  phone : Option String
  address : Option String
  age : Option String
  gender : Option String
  diagnosis : Option String
deriving Repr, DecidableEq

/-- Form data of the add-appointment POST (src/app.py lines 172-179). -/
structure AppointmentForm where
  patient_id : Option String
  doctor_name : Option String
  date : Option String
  time : Option String
  reason : Option String
deriving Repr, DecidableEq

/-- Form data of the add-bill POST (src/app.py lines 202-205). -/
structure BillForm where
  patient_id : Option String
  amount : Option String
  payment_method : Option String
  description : Option String
deriving Repr, DecidableEq

/-- add_patient (src/app.py lines 101-119), the POST branch. The Patient
constructor arguments are evaluated before any session.add, so a failing
int(age or 0) raises inside the try block: the exception is flashed and
no row is inserted. On success the new row is appended with a fresh id
and created_at = now. -/
def add_patient (s : Store) (now : Nat) (f : PatientForm) : Except AppError Store :=
  match parseOrZeroInt f.age with
  | none => .error .valueError
  | some ageVal =>
    let p : Patient :=
      { id := nextId (s.patients.map (·.id))
        name := f.name, email := f.email, phone := f.phone, address := f.address
        age := ageVal, gender := f.gender, diagnosis := f.diagnosis
        created_at := now }
    .ok { s with patients := s.patients ++ [p] }

/-- delete_patient (src/app.py lines 141-147): get_or_404, then delete;
the relationship cascade all,delete-orphan (lines 26-27) removes every
Appointment and Bill whose patient_id is the deleted Patient's id. -/
def delete_patient (s : Store) (pid : Int) : Except AppError Store :=
  if s.patients.any (fun p => p.id == pid) then
    .ok { patients := s.patients.filter (fun p => p.id != pid)
          appointments := s.appointments.filter (fun a => a.patient_id != pid)
          bills := s.bills.filter (fun b => b.patient_id != pid) }
  else .error .notFound

/-- JSON view returned by api_patient: the Patient together with its
related Appointments and Bills (the backref collections). -/
structure PatientView where
  patient : Patient
  appointments : List Appointment
  bills : List Bill
deriving Repr, DecidableEq

/-- api_patient, the getPatient operation (src/app.py lines 149-161):
get_or_404 on the id, then the patient with its appointment and bill
collections (rows whose patient_id equals the patient's id). -/
def getPatient (s : Store) (pid : Int) : Except AppError PatientView :=
  match s.patients.find? (fun p => p.id == pid) with
  | none => .error .notFound
  | some p =>
    .ok { patient := p
          appointments := s.appointments.filter (fun a => a.patient_id == pid)
          bills := s.bills.filter (fun b => b.patient_id == pid) }

/-- patients list view (src/app.py line 98): ORDER BY created_at DESC.
SQLite leaves the relative order of equal keys unspecified; it is
modelled as the stable resolution (equal keys keep table order), via an
insertion sort that moves a row before another only when its created_at
is strictly greater. -/
def insertDesc (p : Patient) : List Patient → List Patient
  | [] => [p]
  | q :: qs => if q.created_at ≤ p.created_at then p :: q :: qs
               else q :: insertDesc p qs

/-- listPatients: all patients ordered by created_at descending. -/
def listPatients (s : Store) : List Patient :=
  s.patients.foldr insertDesc []

/-- add_appointment (src/app.py lines 170-183): int(patient_id) raises on
a missing or non-integer field (uncaught, no row); otherwise the row is
inserted with status "Upcoming". The handler performs no check that the
parsed patient_id references an existing Patient, and SQLite does not
enforce the declared foreign key (no PRAGMA foreign_keys is issued). -/
def add_appointment (s : Store) (f : AppointmentForm) : Except AppError Store :=
  match f.patient_id.bind parsePyInt with
  | none => .error .valueError
  | some pid =>
    let a : Appointment :=
      { id := nextId (s.appointments.map (·.id))
        patient_id := pid
        doctor := f.doctor_name, date := f.date, time := f.time, reason := f.reason
        status := "Upcoming" }
    .ok { s with appointments := s.appointments ++ [a] }

/-- delete_appointment (src/app.py lines 185-191). -/
def delete_appointment (s : Store) (aid : Int) : Except AppError Store :=
  if s.appointments.any (fun a => a.id == aid) then
    .ok { s with appointments := s.appointments.filter (fun a => a.id != aid) }
  else .error .notFound

/-- add_bill (src/app.py lines 200-212): int(patient_id) then
float(amount or 0), either raising uncaught on bad input (no row);
otherwise the row is inserted with status "Pending" and no
transaction_id. As with add_appointment, no existence check is made on
the parsed patient_id. -/
def add_bill (s : Store) (now : Nat) (f : BillForm) : Except AppError Store :=
  match f.patient_id.bind parsePyInt with
  | none => .error .valueError
  | some pid =>
    match parseOrZeroFloat f.amount with
    | none => .error .valueError
    | some amt =>
      let b : Bill :=
        { id := nextId (s.bills.map (·.id))
          patient_id := pid
          amount := amt
          payment_method := f.payment_method
          status := "Pending"
          transaction_id := none
          description := f.description
          date_issued := now }
      .ok { s with bills := s.bills ++ [b] }

/-- delete_bill (src/app.py lines 214-220). -/
def delete_bill (s : Store) (bid : Int) : Except AppError Store :=
  if s.bills.any (fun b => b.id == bid) then
    .ok { s with bills := s.bills.filter (fun b => b.id != bid) }
  else .error .notFound

/-- simulate_pay, the payBill operation (src/app.py lines 222-236):
after the simulated delay, get_or_404 on the bill id, then set
payment_method to the supplied method, transaction_id to
random_txn("MP", draw), status to "Paid", and return the transaction id.
The phone value is read from the request but never used. -/
def simulate_pay (s : Store) (bill_id : Int) (method phone : Option String)
    (draw : List Char) : Except AppError (Store × String) :=
  match s.bills.find? (fun b => b.id == bill_id) with
  | none => .error .notFound
  | some _ =>
    let txn := random_txn "MP" draw
    .ok ({ s with bills := s.bills.map (fun b =>
            if b.id == bill_id then
              { b with payment_method := method, transaction_id := some txn, status := "Paid" }
            else b) },
         txn)

/-- Result record of the dashboard aggregation. -/
structure DashboardStats where
  total_patients : Nat
  total_appointments : Nat
  unpaid_bills : Nat
  total_billing : Int
deriving Repr, DecidableEq

/-- dashboard (src/app.py lines 75-93): entity counts, the count of bills
whose status equals "Pending", and int(sum of all bill amounts). -/
def dashboard (s : Store) : DashboardStats :=
  { total_patients := s.patients.length
    total_appointments := s.appointments.length
    unpaid_bills := (s.bills.filter (fun b => b.status == "Pending")).length
    total_billing := pyTruncInt (s.bills.foldl (fun acc b => acc + b.amount) 0) }

/-- The store of a fresh database before any seeding. -/
def emptyStore : Store :=
  { patients := [], appointments := [], bills := [] }

/-- A sequence of add-patient POSTs, each with its utcnow timestamp; a
failed request leaves the store as it was. -/
def addPatients (s : Store) (calls : List (Nat × PatientForm)) : Store :=
  calls.foldl (fun st c =>
    match add_patient st c.1 c.2 with
    | .ok st2 => st2
    | .error _ => st) s

/-- The seeded initial store (src/app.py lines 56-72): two patients, one
appointment and one already-Paid bill with a CASH-prefixed transaction
id. Timestamps and the random draw are parameters. -/
def seedStore (t1 t2 tb : Nat) (cashDraw : List Char) : Store :=
  { patients :=
      [ { id := 1, name := some "John Doe", email := some "john@example.com"
          phone := some "254712345678", address := some "Embu Campus"
          age := 30, gender := some "Male", diagnosis := some "Flu", created_at := t1 }
      , { id := 2, name := some "Mary Jane", email := some "mary@example.com"
          phone := some "254712345679", address := some "Nairobi"
          age := 25, gender := some "Female", diagnosis := some "Allergy", created_at := t2 } ]
    appointments :=
      [ { id := 1, patient_id := 1, doctor := some "Dr. Wanjiku"
          date := some "2025-11-01", time := some "09:00"
          reason := some "Checkup", status := "Upcoming" } ]
    bills :=
      [ { id := 1, patient_id := 1, amount := 2500
          payment_method := some "Cash", status := "Paid"
          transaction_id := some (random_txn "CASH" cashDraw)
          description := none, date_issued := tb } ] }

/-! Concrete instances used by the witness and counterexample theorems. -/

/-- An add-appointment form referencing patient id 999. -/
def exApptForm : AppointmentForm :=
  { patient_id := some "999", doctor_name := none, date := none, time := none, reason := none }

/-- An add-bill form referencing patient id 999 with amount "50". -/
def exBillForm : BillForm :=
  { patient_id := some "999", amount := some "50", payment_method := none, description := none }

/-- An add-bill form whose amount does not parse as a float. -/
def billFormBadAmount : BillForm :=
  { patient_id := some "1", amount := some "abc", payment_method := none, description := none }

/-- A minimal add-patient form with the given name and no age field. -/
def exPatForm (n : String) : PatientForm :=
  { name := some n, email := none, phone := none, address := none,
    age := none, gender := none, diagnosis := none }

/-- An add-patient form whose age does not parse as an integer. -/
def badAgeForm : PatientForm :=
  { exPatForm "A" with age := some "abc" }

/-- A pending bill for patient 1. -/
def exBill : Bill :=
  { id := 1, patient_id := 1, amount := 5, payment_method := none,
    status := "Pending", transaction_id := none, description := none, date_issued := 0 }

/-- A store holding just the pending bill exBill. -/
def exStoreB : Store := { patients := [], appointments := [], bills := [exBill] }

/-- exBill after a simulated Mpesa payment with draw ABCD0123. -/
def exBillPaid : Bill :=
  { exBill with payment_method := some "Mpesa",
                transaction_id := some "MPABCD0123", status := "Paid" }

/-- A store holding just the already-Paid bill exBillPaid. -/
def exStoreBPaid : Store := { patients := [], appointments := [], bills := [exBillPaid] }

/-- The concrete patient appearing in witness stores. -/
def exPatient : Patient :=
  { id := 1, name := some "John", email := none, phone := none, address := none,
    age := 30, gender := none, diagnosis := none, created_at := 0 }

/-- A second concrete patient. -/
def exPatient2 : Patient :=
  { id := 2, name := some "Mary", email := none, phone := none, address := none,
    age := 25, gender := none, diagnosis := none, created_at := 1 }

/-- An appointment of patient 1. -/
def exAppt1 : Appointment :=
  { id := 1, patient_id := 1, doctor := none, date := some "2025-11-01",
    time := some "09:00", reason := none, status := "Upcoming" }

/-- An appointment of patient 2. -/
def exAppt2 : Appointment :=
  { id := 2, patient_id := 2, doctor := none, date := some "2024-01-01",
    time := some "10:00", reason := none, status := "Upcoming" }

/-- A bill of patient 2. -/
def exBillP2 : Bill :=
  { id := 2, patient_id := 2, amount := 7, payment_method := none,
    status := "Pending", transaction_id := none, description := none, date_issued := 3 }

/-- A store with two patients, each owning an appointment, and bills for
both patients. -/
def exStoreFull : Store :=
  { patients := [exPatient, exPatient2]
    appointments := [exAppt1, exAppt2]
    bills := [exBill, exBillP2] }

/-- Two add-patient calls at strictly increasing timestamps. -/
def exCalls : List (Nat × PatientForm) := [(1, exPatForm "A"), (2, exPatForm "B")]

/-- Two add-patient calls at the same timestamp. -/
def exTieCalls : List (Nat × PatientForm) := [(5, exPatForm "A"), (5, exPatForm "B")]

/-- The invariant of claim C4: a bill carries a transaction id exactly
when its status is Paid. -/
def billTxnInv (s : Store) : Prop :=
  ∀ b ∈ s.bills, b.transaction_id.isSome = true ↔ b.status = "Paid"

/-- States reachable from the seeded store by the bill-touching domain
operations named in claim C4: createBill, payBill, deleteBill and
deletePatient, each taken only when the handler succeeds. -/
inductive ReachableBillOps : Store → Prop where
  | seed (t1 t2 tb : Nat) (cashDraw : List Char) :
      ReachableBillOps (seedStore t1 t2 tb cashDraw)
  | createBill (s : Store) (now : Nat) (f : BillForm) (s2 : Store) :
      ReachableBillOps s → add_bill s now f = .ok s2 → ReachableBillOps s2
  | payBill (s : Store) (bid : Int) (m ph : Option String) (draw : List Char)
      (s2 : Store) (txn : String) :
      ReachableBillOps s → simulate_pay s bid m ph draw = .ok (s2, txn) →
      ReachableBillOps s2
  | delBill (s : Store) (bid : Int) (s2 : Store) :
      ReachableBillOps s → delete_bill s bid = .ok s2 → ReachableBillOps s2
  | delPatient (s : Store) (pid : Int) (s2 : Store) :
      ReachableBillOps s → delete_patient s pid = .ok s2 → ReachableBillOps s2

/-- The rewrite simulate_pay applies to the matched bill row: the three
assigned columns change, every other column is carried over. -/
def paidBill (x : Bill) (method : Option String) (txn : String) : Bill :=
  { x with payment_method := method, transaction_id := some txn, status := "Paid" }

/-! Theorems. -/

/-- Folding bill amounts starting from an accumulator equals the
accumulator plus the sum of the amounts. -/
theorem foldl_add_amount (l : List Bill) (acc : Rat) :
    l.foldl (fun a b => a + b.amount) acc = acc + (l.map (fun b => b.amount)).sum := by
  induction l generalizing acc with
  | nil => simp
  | cons b l ih => simp [ih, add_assoc]

/-- Claim C8: for every store state, the dashboard's unpaid-bills count
is the number of bills whose status is exactly "Pending", and
total_billing is the sum of amount over all bills (Paid and zero-amount
ones included) truncated to an integer. -/
theorem C8_dashboard_stats (s : Store) :
    (dashboard s).unpaid_bills
      = (s.bills.filter (fun b => decide (b.status = "Pending"))).length
    ∧ (dashboard s).total_billing
      = pyTruncInt ((s.bills.map (fun b => b.amount)).sum) := by
  constructor
  · show (s.bills.filter (fun b => b.status == "Pending")).length = _
    congr 1
  · show pyTruncInt (s.bills.foldl (fun acc b => acc + b.amount) 0) = _
    rw [foldl_add_amount]
    simp

/-- Claim C9: simulate_pay ignores its phone argument entirely: two
invocations differing only in phone agree on the resulting store and
returned transaction id (with the same randomness draw). -/
theorem C9_phone_dead_parameter (s : Store) (bid : Int) (method p1 p2 : Option String)
    (draw : List Char) :
    simulate_pay s bid method p1 draw = simulate_pay s bid method p2 draw := rfl

/-- Claim C10: an add-patient request whose age field is a non-empty
string that does not parse as an integer fails (the raised ValueError is
caught and flashed) and no patient row is created: the handler returns
an error and performs no mutation. -/
theorem C10_bad_age_rejected (s : Store) (now : Nat) (f : PatientForm) (a : String)
    (ha : f.age = some a) (hne : a ≠ "") (hp : parsePyInt a = none) :
    add_patient s now f = .error .valueError := by
  simp [add_patient, parseOrZeroInt, ha, hne, hp]

/-- Witness for C10 at the concrete form whose age field is "abc". -/
theorem C10_witness :
    badAgeForm.age = some "abc" ∧ "abc" ≠ "" ∧ parsePyInt "abc" = none
    ∧ add_patient emptyStore 0 badAgeForm = .error .valueError :=
  ⟨rfl, by decide, by decide,
   C10_bad_age_rejected emptyStore 0 badAgeForm "abc" rfl (by decide) (by decide)⟩

/-- Counterexample to claim C2: against a store with no patients at all,
an add-appointment and an add-bill request referencing patient id 999
succeed and create the row (no ValidationError, the store is mutated):
the handlers never check that the parsed patient_id exists, and SQLite
does not enforce the declared foreign key. -/
theorem C2_counterexample :
    emptyStore.patients = []
    ∧ add_appointment emptyStore exApptForm
        = .ok { patients := [], bills := [],
                appointments := [{ id := 1, patient_id := 999, doctor := none,
                                   date := none, time := none, reason := none,
                                   status := "Upcoming" }] }
    ∧ add_bill emptyStore 0 exBillForm
        = .ok { patients := [], appointments := [],
                bills := [{ id := 1, patient_id := 999, amount := 50,
                            payment_method := none, status := "Pending",
                            transaction_id := none, description := none,
                            date_issued := 0 }] } :=
  ⟨rfl, rfl, rfl⟩

/-- Claim C2 as amended: when the patientId field parses as an integer
that references no existing Patient, add_appointment and add_bill do NOT
fail: no validation is performed and the new row is appended,
referencing the non-existent patient. -/
theorem C2_amended (s : Store) (now : Nat) (fa : AppointmentForm) (fb : BillForm)
    (pa pb : String) (pidA pidB : Int) (amt : Rat)
    (hfa : fa.patient_id = some pa) (hA : parsePyInt pa = some pidA)
    (hnoA : ∀ p ∈ s.patients, p.id ≠ pidA)
    (hfb : fb.patient_id = some pb) (hB : parsePyInt pb = some pidB)
    (hnoB : ∀ p ∈ s.patients, p.id ≠ pidB)
    (hamt : parseOrZeroFloat fb.amount = some amt) :
    (∃ a : Appointment, a.patient_id = pidA ∧
        add_appointment s fa
          = .ok { s with appointments := s.appointments ++ [a] })
    ∧ (∃ b : Bill, b.patient_id = pidB ∧ b.amount = amt ∧
        add_bill s now fb
          = .ok { s with bills := s.bills ++ [b] }) := by
  constructor
  · refine ⟨{ id := nextId (s.appointments.map (fun a => a.id)), patient_id := pidA,
              doctor := fa.doctor_name, date := fa.date, time := fa.time,
              reason := fa.reason, status := "Upcoming" }, rfl, ?_⟩
    simp [add_appointment, hfa, hA]
  · refine ⟨{ id := nextId (s.bills.map (fun b => b.id)), patient_id := pidB,
              amount := amt, payment_method := fb.payment_method, status := "Pending",
              transaction_id := none, description := fb.description,
              date_issued := now }, rfl, rfl, ?_⟩
    simp [add_bill, hfb, hB, hamt]

/-- Witness for the amended C2 at a patient-free store and forms
referencing patient id 999. -/
theorem C2_witness :
    (∃ a : Appointment, a.patient_id = 999 ∧
        add_appointment emptyStore exApptForm
          = .ok { emptyStore with
                  appointments := emptyStore.appointments ++ [a] })
    ∧ (∃ b : Bill, b.patient_id = 999 ∧ b.amount = 50 ∧
        add_bill emptyStore 0 exBillForm
          = .ok { emptyStore with bills := emptyStore.bills ++ [b] }) :=
  C2_amended emptyStore 0 exApptForm exBillForm "999" "999" 999 999 50
    rfl (by decide) (by simp [emptyStore]) rfl (by decide) (by simp [emptyStore]) rfl

/-- Counterexample to claim C5: an age input of "abc" (non-empty, not an
integer) makes add_patient fail instead of defaulting to 0, and an
amount input of "abc" makes add_bill fail instead of defaulting to 0;
neither entity is created. -/
theorem C5_counterexample :
    parsePyInt "abc" = none ∧ parsePyFloat "abc" = none
    ∧ badAgeForm.age = some "abc" ∧ billFormBadAmount.amount = some "abc"
    ∧ add_patient emptyStore 0 badAgeForm = .error .valueError
    ∧ add_bill emptyStore 0 billFormBadAmount = .error .valueError :=
  ⟨by decide, by decide, rfl, rfl, rfl, rfl⟩

/-- Claim C5 as amended: only a MISSING or EMPTY age/amount field is
absorbed by the lenient default 0 with the entity still created. A
non-empty age that int() rejects makes add_patient fail with no row
created, and a non-empty amount that float() rejects makes add_bill fail
with no row created. -/
theorem C5_amended (s : Store) (now : Nat) (f : PatientForm) (g : BillForm)
    (pb : String) (pidB : Int)
    (hgp : g.patient_id = some pb) (hB : parsePyInt pb = some pidB) :
    ((f.age = none ∨ f.age = some "") →
      ∃ p : Patient, p.age = 0 ∧
        add_patient s now f = .ok { s with patients := s.patients ++ [p] })
    ∧ (∀ a : String, f.age = some a → a ≠ "" → parsePyInt a = none →
        add_patient s now f = .error .valueError)
    ∧ ((g.amount = none ∨ g.amount = some "") →
      ∃ b : Bill, b.amount = 0 ∧
        add_bill s now g = .ok { s with bills := s.bills ++ [b] })
    ∧ (∀ a : String, g.amount = some a → a ≠ "" → parsePyFloat a = none →
        add_bill s now g = .error .valueError) := by
  refine ⟨?_, ?_, ?_, ?_⟩
  · intro h
    refine ⟨{ id := nextId (s.patients.map (fun p => p.id)), name := f.name,
              email := f.email, phone := f.phone, address := f.address, age := 0,
              gender := f.gender, diagnosis := f.diagnosis, created_at := now },
            rfl, ?_⟩
    rcases h with h | h <;> simp [add_patient, parseOrZeroInt, h]
  · intro a ha hne hp
    simp [add_patient, parseOrZeroInt, ha, hne, hp]
  · intro h
    refine ⟨{ id := nextId (s.bills.map (fun b => b.id)), patient_id := pidB,
              amount := 0, payment_method := g.payment_method, status := "Pending",
              transaction_id := none, description := g.description,
              date_issued := now }, rfl, ?_⟩
    rcases h with h | h <;> simp [add_bill, parseOrZeroFloat, hgp, hB, h]
  · intro a ha hne hp
    simp [add_bill, parseOrZeroFloat, hgp, hB, ha, hne, hp]

/-- Witness for the amended C5: an ageless patient form and a bill form
with patient id "1" and a missing amount. -/
theorem C5_witness :
    ∃ p : Patient, p.age = 0 ∧
      add_patient emptyStore 0 (exPatForm "A")
        = .ok { emptyStore with patients := emptyStore.patients ++ [p] } :=
  (C5_amended emptyStore 0 (exPatForm "A")
    { patient_id := some "1", amount := none, payment_method := none, description := none }
    "1" 1 rfl (by decide)).1 (Or.inl rfl)

/-- Claim C3: for an existing bill, simulate_pay succeeds and returns a
transaction id made of the prefix MP followed by the 8 drawn
uppercase-alphanumeric characters; the matched bill gets exactly
payment_method := method, transaction_id := the new token and
status := "Paid" while every other bill, every patient and every
appointment is untouched; for an absent bill id it fails with NotFound. -/
theorem C3_payBill_contract (s : Store) (bid : Int) (method phone : Option String)
    (draw : List Char) (hlen : draw.length = 8) (halpha : draw.all isTxnChar = true) :
    (∀ b, s.bills.find? (fun x => x.id == bid) = some b →
      ∃ s2 txn, simulate_pay s bid method phone draw = .ok (s2, txn)
        ∧ txn.toList = 'M' :: 'P' :: draw
        ∧ (txn.toList.drop 2).length = 8
        ∧ (txn.toList.drop 2).all isTxnChar = true
        ∧ s2.patients = s.patients
        ∧ s2.appointments = s.appointments
        ∧ s2.bills.length = s.bills.length
        ∧ (∀ x ∈ s.bills, x.id ≠ bid → x ∈ s2.bills)
        ∧ (∀ x ∈ s.bills, x.id = bid → paidBill x method txn ∈ s2.bills)
        ∧ (∀ y ∈ s2.bills, (y ∈ s.bills ∧ y.id ≠ bid) ∨
            ∃ x ∈ s.bills, x.id = bid ∧ y = paidBill x method txn))
    ∧ (s.bills.find? (fun x => x.id == bid) = none →
        simulate_pay s bid method phone draw = .error .notFound) := by
  constructor
  · intro b hb
    refine ⟨{ s with bills := s.bills.map (fun x =>
        if x.id == bid then paidBill x method (random_txn "MP" draw) else x) },
      random_txn "MP" draw, ?_, ?_, ?_, ?_, rfl, rfl, ?_, ?_, ?_, ?_⟩
    · simp [simulate_pay, hb, paidBill]
    · rfl
    · show draw.length = 8
      exact hlen
    · show draw.all isTxnChar = true
      exact halpha
    · simp
    · intro x hx hne
      refine List.mem_map.mpr ⟨x, hx, ?_⟩
      simp [hne]
    · intro x hx he
      refine List.mem_map.mpr ⟨x, hx, ?_⟩
      simp [he]
    · intro y hy
      obtain ⟨x, hx, hfx⟩ := List.mem_map.mp hy
      by_cases he : x.id = bid
      · right
        refine ⟨x, hx, he, ?_⟩
        simp [he] at hfx
        exact hfx.symm
      · left
        have hyx : y = x := by simpa [he] using hfx.symm
        exact ⟨hyx ▸ hx, by rw [hyx]; exact he⟩
  · intro hnone
    simp [simulate_pay, hnone]

/-- Witness for C3 at a one-bill store and the draw ABCD0123. -/
theorem C3_witness :
    ∃ s2 txn,
      simulate_pay exStoreB 1 (some "Mpesa") (some "254700000000") ("ABCD0123".toList)
        = .ok (s2, txn)
      ∧ txn.toList = 'M' :: 'P' :: "ABCD0123".toList := by
  have h := C3_payBill_contract exStoreB 1 (some "Mpesa") (some "254700000000")
    ("ABCD0123".toList) (by decide) (by decide)
  obtain ⟨s2, txn, hok, htxn, hrest⟩ := h.1 exBill (by decide)
  exact ⟨s2, txn, hok, htxn⟩

/-- Claim C6: simulate_pay applies no guard against re-payment: on a bill
whose status is already "Paid" it still succeeds, overwriting
payment_method with the supplied method and transaction_id with the
freshly generated token; when the new token differs from the stored one
the bill row really changes. -/
theorem C6_repay_no_guard (s : Store) (bid : Int) (b : Bill) (method phone : Option String)
    (draw : List Char)
    (hb : s.bills.find? (fun x => x.id == bid) = some b)
    (hpaid : b.status = "Paid") :
    ∃ s2 txn, simulate_pay s bid method phone draw = .ok (s2, txn)
      ∧ txn = random_txn "MP" draw
      ∧ paidBill b method txn ∈ s2.bills
      ∧ (paidBill b method txn).payment_method = method
      ∧ (paidBill b method txn).transaction_id = some txn
      ∧ (b.transaction_id ≠ some txn →
          ∃ y ∈ s2.bills, y.id = b.id ∧ y ≠ b) := by
  have hmem : b ∈ s.bills := List.mem_of_find?_eq_some hb
  have hbid : b.id = bid := by
    have := List.find?_some hb
    simpa using this
  refine ⟨{ s with bills := s.bills.map (fun x =>
      if x.id == bid then paidBill x method (random_txn "MP" draw) else x) },
    random_txn "MP" draw, ?_, rfl, ?_, rfl, rfl, ?_⟩
  · simp [simulate_pay, hb, paidBill]
  · refine List.mem_map.mpr ⟨b, hmem, ?_⟩
    simp [hbid]
  · intro hneq
    refine ⟨paidBill b method (random_txn "MP" draw), ?_, rfl, ?_⟩
    · refine List.mem_map.mpr ⟨b, hmem, ?_⟩
      simp [hbid]
    · intro hcontra
      apply hneq
      have := congrArg Bill.transaction_id hcontra
      simpa [paidBill] using this.symm

/-- Witness for C6 at a store whose only bill is already Paid. -/
theorem C6_witness :
    ∃ s2 txn,
      simulate_pay exStoreBPaid 1 (some "Card") none ("ZZZZ9999".toList) = .ok (s2, txn)
      ∧ txn = random_txn "MP" ("ZZZZ9999".toList)
      ∧ paidBill exBillPaid (some "Card") txn ∈ s2.bills := by
  obtain ⟨s2, txn, hok, htxn, hmem, hrest⟩ :=
    C6_repay_no_guard exStoreBPaid 1 exBillPaid (some "Card") none
      ("ZZZZ9999".toList) (by decide) (by decide)
  exact ⟨s2, txn, hok, htxn, hmem⟩

/-- Claim C1: deleting a stored patient id succeeds and yields a store
containing exactly the patients whose id differs, the appointments and
bills whose patient_id differs (the cascade), everything else untouched
with order preserved, and a subsequent getPatient on that id fails with
NotFound. -/
theorem C1_delete_patient_cascade (s : Store) (pid : Int)
    (hex : ∃ p ∈ s.patients, p.id = pid) :
    ∃ s2, delete_patient s pid = .ok s2
      ∧ (∀ p : Patient, p ∈ s2.patients ↔ p ∈ s.patients ∧ p.id ≠ pid)
      ∧ (∀ a : Appointment, a ∈ s2.appointments ↔ a ∈ s.appointments ∧ a.patient_id ≠ pid)
      ∧ (∀ b : Bill, b ∈ s2.bills ↔ b ∈ s.bills ∧ b.patient_id ≠ pid)
      ∧ getPatient s2 pid = .error .notFound := by
  have hany : s.patients.any (fun p => p.id == pid) = true := by
    obtain ⟨p, hp, hid⟩ := hex
    exact List.any_eq_true.mpr ⟨p, hp, by simp [hid]⟩
  refine ⟨{ patients := s.patients.filter (fun p => p.id != pid)
            appointments := s.appointments.filter (fun a => a.patient_id != pid)
            bills := s.bills.filter (fun b => b.patient_id != pid) },
    ?_, ?_, ?_, ?_, ?_⟩
  · simp [delete_patient, hany]
  · intro p
    simp [List.mem_filter]
  · intro a
    simp [List.mem_filter]
  · intro b
    simp [List.mem_filter]
  · have hnone : (s.patients.filter (fun p => p.id != pid)).find?
        (fun p => p.id == pid) = none := by
      apply List.find?_eq_none.mpr
      intro p hp
      have h2 := (List.mem_filter.mp hp).2
      simp at h2 ⊢
      exact h2
    simp [getPatient, hnone]

/-- Witness for C1 at a two-patient store with cross-referencing
appointments and bills, deleting patient 1. -/
theorem C1_witness :
    ∃ s2, delete_patient exStoreFull 1 = .ok s2
      ∧ (∀ p : Patient, p ∈ s2.patients ↔ p ∈ exStoreFull.patients ∧ p.id ≠ 1)
      ∧ (∀ a : Appointment,
          a ∈ s2.appointments ↔ a ∈ exStoreFull.appointments ∧ a.patient_id ≠ 1)
      ∧ (∀ b : Bill, b ∈ s2.bills ↔ b ∈ exStoreFull.bills ∧ b.patient_id ≠ 1)
      ∧ getPatient s2 1 = .error .notFound :=
  C1_delete_patient_cascade exStoreFull 1 ⟨exPatient, by simp [exStoreFull], by decide⟩

/-- Claim C4: in every store reachable from the seeded initial store by
successful createBill, payBill, deleteBill and deletePatient operations,
a bill's transaction_id is present exactly when its status is "Paid". -/
theorem C4_txn_iff_paid (s : Store) (h : ReachableBillOps s) : billTxnInv s := by
  induction h with
  | seed t1 t2 tb cashDraw =>
    intro b hb
    simp [seedStore] at hb
    subst hb
    simp [random_txn]
  | createBill s now f s2 hre hok ih =>
    cases hpid : f.patient_id.bind parsePyInt with
    | none => simp [add_bill, hpid] at hok
    | some pid =>
      cases hamt : parseOrZeroFloat f.amount with
      | none => simp [add_bill, hpid, hamt] at hok
      | some amt =>
        simp [add_bill, hpid, hamt] at hok
        intro b hb
        rw [← hok] at hb
        simp at hb
        rcases hb with hb | hb
        · exact ih b hb
        · subst hb
          simp
  | payBill s bid m ph draw s2 txn hre hok ih =>
    cases hfind : s.bills.find? (fun x => x.id == bid) with
    | none => simp [simulate_pay, hfind] at hok
    | some b0 =>
      simp [simulate_pay, hfind] at hok
      intro b hb
      rw [← hok.1] at hb
      simp at hb
      obtain ⟨x, hx, hfx⟩ := hb
      by_cases he : x.id = bid
      · rw [← hfx]
        simp [he]
      · rw [← hfx]
        simp [he]
        exact ih x hx
  | delBill s bid s2 hre hok ih =>
    have hrw : s2.bills = s.bills.filter (fun b => b.id != bid) := by
      by_cases hany : s.bills.any (fun b => b.id == bid) = true
      · simp [delete_bill, hany] at hok
        rw [← hok]
      · simp [delete_bill, hany] at hok
    intro b hb
    rw [hrw] at hb
    exact ih b (List.mem_filter.mp hb).1
  | delPatient s pid s2 hre hok ih =>
    have hrw : s2.bills = s.bills.filter (fun b => b.patient_id != pid) := by
      by_cases hany : s.patients.any (fun p => p.id == pid) = true
      · simp [delete_patient, hany] at hok
        rw [← hok]
      · simp [delete_patient, hany] at hok
    intro b hb
    rw [hrw] at hb
    exact ih b (List.mem_filter.mp hb).1

/-- Witness for C4 at the seeded store with zeroed timestamps and an
empty CASH draw. -/
theorem C4_witness : billTxnInv (seedStore 0 0 0 []) :=
  C4_txn_iff_paid (seedStore 0 0 0 []) (ReachableBillOps.seed 0 0 0 [])

/-- The created_at column of the patients produced by a sequence of
add-patient calls: the starting store's timestamps followed by a
sublist of the calls' timestamps (failed calls contribute nothing). -/
theorem addPatients_created_ats (calls : List (Nat × PatientForm)) (s : Store) :
    ∃ ts : List Nat, ts.Sublist (calls.map Prod.fst)
      ∧ (addPatients s calls).patients.map (fun p => p.created_at)
          = s.patients.map (fun p => p.created_at) ++ ts := by
  induction calls generalizing s with
  | nil => exact ⟨[], by simp, by simp [addPatients]⟩
  | cons c rest ih =>
    have hstep : addPatients s (c :: rest)
        = addPatients (match add_patient s c.1 c.2 with
                       | .ok st2 => st2
                       | .error _ => s) rest := rfl
    cases hadd : add_patient s c.1 c.2 with
    | error e =>
      obtain ⟨ts, hsub, heq⟩ := ih s
      refine ⟨ts, ?_, ?_⟩
      · exact hsub.trans (List.sublist_cons_self _ _)
      · rw [hstep, hadd]
        exact heq
    | ok st2 =>
      have hbills : st2 = { s with patients := s.patients ++
          [{ id := nextId (s.patients.map (fun p => p.id)), name := c.2.name,
             email := c.2.email, phone := c.2.phone, address := c.2.address,
             age := (parseOrZeroInt c.2.age).getD 0, gender := c.2.gender,
             diagnosis := c.2.diagnosis, created_at := c.1 }] } := by
        cases hage : parseOrZeroInt c.2.age with
        | none => simp [add_patient, hage] at hadd
        | some v =>
          simp [add_patient, hage] at hadd
          rw [← hadd]
          simp
      obtain ⟨ts, hsub, heq⟩ := ih st2
      refine ⟨c.1 :: ts, List.Sublist.cons₂ _ hsub, ?_⟩
      rw [hstep, hadd, heq, hbills]
      simp

/-- Inserting a patient whose timestamp is strictly below every timestamp
in the list sends it to the end. -/
theorem insertDesc_of_lt (p : Patient) (m : List Patient)
    (h : ∀ q ∈ m, p.created_at < q.created_at) :
    insertDesc p m = m ++ [p] := by
  induction m with
  | nil => rfl
  | cons q m ih =>
    have hq := h q (List.mem_cons_self q m)
    have hnle : ¬ q.created_at ≤ p.created_at := not_le.mpr hq
    simp [insertDesc, hnle, ih (fun r hr => h r (List.mem_cons_of_mem q hr))]

/-- On a patient list with strictly increasing timestamps, the
descending sort is exactly list reversal. -/
theorem sortDesc_of_strict (l : List Patient)
    (h : (l.map (fun p => p.created_at)).Pairwise (· < ·)) :
    l.foldr insertDesc [] = l.reverse := by
  induction l with
  | nil => rfl
  | cons p l ih =>
    rw [List.map_cons, List.pairwise_cons] at h
    obtain ⟨hp, hl⟩ := h
    have hstep : (p :: l).foldr insertDesc [] = insertDesc p (l.foldr insertDesc []) := rfl
    rw [hstep, ih hl, insertDesc_of_lt, List.reverse_cons]
    intro q hq
    exact hp q.created_at (List.mem_map_of_mem _ (List.mem_reverse.mp hq))

/-- Counterexample to claim C7: two add-patient calls carrying the same
(non-decreasing) creation timestamp produce a store whose listPatients
output is NOT the strict reverse of insertion order: SQLite's ORDER BY
created_at DESC leaves tied rows in table order. -/
theorem C7_counterexample :
    ((addPatients emptyStore exTieCalls).patients.map (fun p => p.created_at)).Pairwise
      (· ≤ ·)
    ∧ listPatients (addPatients emptyStore exTieCalls)
        ≠ (addPatients emptyStore exTieCalls).patients.reverse := by
  constructor
  · decide
  · decide

/-- Claim C7 as amended: over any sequence of add-patient calls at
non-decreasing clock readings, the stored created_at values are
non-decreasing in insertion order; and whenever the clock readings are
strictly increasing, listPatients is exactly the strict reverse of
insertion order (with ties the sort need not reverse the tied rows). -/
theorem C7_amended (calls : List (Nat × PatientForm))
    (hmono : (calls.map Prod.fst).Pairwise (· ≤ ·)) :
    ((addPatients emptyStore calls).patients.map (fun p => p.created_at)).Pairwise (· ≤ ·)
    ∧ ((calls.map Prod.fst).Pairwise (· < ·) →
        listPatients (addPatients emptyStore calls)
          = (addPatients emptyStore calls).patients.reverse) := by
  obtain ⟨ts, hsub, heq⟩ := addPatients_created_ats calls emptyStore
  have heq2 : (addPatients emptyStore calls).patients.map (fun p => p.created_at) = ts := by
    rw [heq]
    rfl
  constructor
  · rw [heq2]
    exact hmono.sublist hsub
  · intro hstrict
    have hts : ((addPatients emptyStore calls).patients.map
        (fun p => p.created_at)).Pairwise (· < ·) := by
      rw [heq2]
      exact hstrict.sublist hsub
    exact sortDesc_of_strict _ hts

/-- Witness for the amended C7 at two calls with timestamps 1 and 2. -/
theorem C7_witness :
    ((addPatients emptyStore exCalls).patients.map (fun p => p.created_at)).Pairwise (· ≤ ·)
    ∧ ((exCalls.map Prod.fst).Pairwise (· < ·) →
        listPatients (addPatients emptyStore exCalls)
          = (addPatients emptyStore exCalls).patients.reverse) :=
  C7_amended exCalls (by decide)
